import Mathlib

/-!
Shallow embedding of the core of the financial-analyst backend:
the JWT session/refresh-token lifecycle (middleware/auth.js and the
auth router) and the market-data service (marketDataService.js).

Modelling conventions:
* Machine time is `Nat` seconds (`AppState.now`).
* A JWT is a record carrying its claim set, the secret it was signed
  with, and its `exp` claim; `jwtVerify` succeeds exactly when the
  secret matches and the token is unexpired, mirroring jwt.verify.
* bcrypt hashing is modelled as a deterministic injective tag; only
  the success/failure of the comparison matters to the code.
* The Redis cache (sessions, rate-limit counters) and the Postgres
  tables (users, refresh_tokens) are association lists inside one
  `AppState`; Redis errors during the rate-limit ops are injected
  through the `rlFail` oracle flag (the code catches such errors and
  returns 0 from incrementRateLimit).
-/

namespace FinApp

/-! Core value types -/

inductive Secret
  | access
  | refresh
deriving DecidableEq, Repr

structure Jwt where
  userId : Nat
  sessionId : String
  secret : Secret
  exp : Nat
deriving DecidableEq, Repr

structure JwtPayload where
  userId : Nat
  sessionId : String
deriving DecidableEq, Repr

/-- jwt.verify(token, secret): succeeds iff the token was signed with
`s` and its exp claim has not passed. -/
def jwtVerify (t : Jwt) (s : Secret) (now : Nat) : Option JwtPayload :=
  if t.secret = s ∧ now < t.exp then some ⟨t.userId, t.sessionId⟩ else none

/-- jwt.sign(claims, secret, expiresIn): mints a token. -/
def jwtSign (userId : Nat) (sessionId : String) (s : Secret) (now ttl : Nat) : Jwt :=
  ⟨userId, sessionId, s, now + ttl⟩

/-- bcrypt.hash modelled as a deterministic injective tagging. -/
def hashPassword (password : String) : String :=
  "bcrypt$" ++ password

/-- bcrypt.compare(password, hash): true iff hash is the hash of password. -/
def comparePassword (password hash : String) : Bool :=
  hash == hashPassword password

/-- A row of the users table (columns used by the auth code). -/
structure User where
  id : Nat
  email : String
  password_hash : String
  first_name : String
  last_name : String
  is_active : Bool
deriving DecidableEq, Repr

/-- The userData object stored by setSession.  In the source the login
and register handlers read `user.firstName` and `user.lastName` off a
SQL row whose columns are `first_name` and `last_name`, so both fields
are undefined there; `none` models that. -/
structure SessionData where
  userId : Nat
  email : String
  firstName : Option String
  lastName : Option String
deriving DecidableEq, Repr

/-- A row of the refresh_tokens table (token = sessionId). -/
structure RefreshTokenRow where
  user_id : Nat
  token : String
  expires_at : Nat
deriving DecidableEq, Repr

/-- A Redis counter key used by incrementRateLimit, with its TTL
expiry instant. -/
structure RateLimitEntry where
  key : String
  count : Nat
  expires_at : Nat
deriving DecidableEq, Repr

/-- The shared mutable state: Postgres tables (users, refresh_tokens)
and the Redis cache (sessions, rate-limit counters).  `rlFail`
injects Redis errors into the rate-limit operations only. -/
structure AppState where
  users : List User
  sessions : List (String × SessionData)
  refresh_tokens : List RefreshTokenRow
  rate_limits : List RateLimitEntry
  rlFail : Bool
  now : Nat
deriving DecidableEq, Repr

/-! Redis session helpers (config/redis.js) -/

/-- getSession: read `session:id` from the cache. -/
def getSession (st : AppState) (sessionId : String) : Option SessionData :=
  st.sessions.lookup sessionId

/-- setSession: write `session:id` (overwriting any previous value). -/
def setSession (st : AppState) (sessionId : String) (d : SessionData) : AppState :=
  { st with sessions := (sessionId, d) :: st.sessions.filter (fun p => p.1 != sessionId) }

/-- deleteSession: delete `session:id` (a no-op when absent). -/
def deleteSession (st : AppState) (sessionId : String) : AppState :=
  { st with sessions := st.sessions.filter (fun p => p.1 != sessionId) }

/-! SQL helpers -/

/-- SELECT ... FROM users WHERE id = $1. -/
def findUserById (st : AppState) (id : Nat) : Option User :=
  st.users.find? (fun u => u.id == id)

/-- SELECT ... FROM users WHERE email = $1. -/
def findUserByEmail (st : AppState) (email : String) : Option User :=
  st.users.find? (fun u => u.email == email)

/-- DELETE FROM refresh_tokens WHERE user_id = $1 AND token = $2. -/
def deleteRefreshTokenRow (st : AppState) (userId : Nat) (token : String) : AppState :=
  { st with refresh_tokens :=
      st.refresh_tokens.filter (fun r => !(r.user_id == userId && r.token == token)) }

/-! Middleware (middleware/auth.js) -/

/-- A JSON error response: status code, error kind, message. -/
structure ErrResp where
  status : Nat
  error : String
  message : String
deriving DecidableEq, Repr

/-- The req.user object attached by validateToken. -/
structure ReqUser where
  id : Nat
  sessionId : String
  email : String
  firstName : String
  lastName : String
deriving DecidableEq, Repr

/-- Outcome of an Express middleware: respond-and-stop, or call next()
with req.user attached. -/
inductive AuthResult
  | halt (r : ErrResp)
  | next (u : ReqUser)
deriving DecidableEq, Repr

/-- validateToken middleware.  The `Option Jwt` argument is the bearer
token of the Authorization header (`none` covers a missing header, a
non-Bearer header, and an empty token, all of which answer 401 before
any verification). -/
def validateToken (st : AppState) (authToken : Option Jwt) : AuthResult × AppState :=
  match authToken with
  | none =>
      (.halt ⟨401, "Access token required", "No authorization header or invalid format"⟩, st)
  | some t =>
      match jwtVerify t .access st.now with
      | none =>
          (.halt ⟨401, "Invalid token", "Token is invalid or expired"⟩, st)
      | some d =>
          match getSession st d.sessionId with
          | none =>
              (.halt ⟨401, "Invalid session", "Session expired or invalid"⟩, st)
          | some _ =>
              match findUserById st d.userId with
              | none =>
                  (.halt ⟨401, "User not found or inactive", "User account is inactive or deleted"⟩,
                   deleteSession st d.sessionId)
              | some u =>
                  if u.is_active then
                    (.next ⟨d.userId, d.sessionId, u.email, u.first_name, u.last_name⟩, st)
                  else
                    (.halt ⟨401, "User not found or inactive", "User account is inactive or deleted"⟩,
                     deleteSession st d.sessionId)

/-- logout middleware: if req.user is set, delete the session from the
cache and the matching refresh-token row from the database; errors are
caught and next() is called regardless. -/
def logout (st : AppState) (reqUser : Option ReqUser) : AppState :=
  match reqUser with
  | none => st
  | some u => deleteRefreshTokenRow (deleteSession st u.sessionId) u.id u.sessionId

/-- A plain success JSON response. -/
structure OkResp where
  status : Nat
  message : String
deriving DecidableEq, Repr

/-- POST /api/auth/logout.  The middleware chain of the route is
`[logout]` followed by the handler; neither validateToken nor
optionalAuth is mounted on this route (or on the /api/auth router), so
req.user is still unset when the logout middleware runs. -/
def logoutRoute (st : AppState) : OkResp × AppState :=
  let st' := logout st none
  (⟨200, "Logout successful"⟩, st')

/-! POST /api/auth/refresh -/

/-- Result of the refresh endpoint: 401 error or a fresh access token. -/
inductive RefreshResult
  | err (r : ErrResp)
  | ok (accessToken : Jwt)
deriving DecidableEq, Repr

/-- POST /api/auth/refresh: verify the presented token against the
refresh secret, require an unexpired refresh_tokens row whose token
column equals the embedded sessionId (WHERE token = $1 AND
expires_at > NOW()), require the referenced user to be active, then
sign a new 15-minute access token.  No table or cache entry is
written in any branch. -/
def refreshRoute (st : AppState) (refreshToken : Jwt) : RefreshResult × AppState :=
  match jwtVerify refreshToken .refresh st.now with
  | none =>
      (.err ⟨401, "Invalid refresh token", "Refresh token is invalid or expired"⟩, st)
  | some d =>
      match st.refresh_tokens.find?
          (fun r => r.token == d.sessionId && decide (st.now < r.expires_at)) with
      | none =>
          (.err ⟨401, "Invalid refresh token", "Refresh token not found or expired"⟩, st)
      | some _ =>
          match findUserById st d.userId with
          | none =>
              (.err ⟨401, "User not found or inactive", "User account is inactive or deleted"⟩, st)
          | some u =>
              if u.is_active then
                (.ok (jwtSign d.userId d.sessionId .access st.now 900), st)
              else
                (.err ⟨401, "User not found or inactive", "User account is inactive or deleted"⟩, st)

/-! GET /api/auth/profile -/

/-- Result of the profile endpoint.  In the source the firstName and
lastName fields of the response are read as `user.firstName` off a SQL
row whose columns are first_name and last_name, hence undefined; only
id and email are populated. -/
inductive ProfileResult
  | err (r : ErrResp)
  | ok (id : Nat) (email : String)
deriving DecidableEq, Repr

/-- GET /api/auth/profile: verifies the bearer token against the
access secret and loads the user row.  The handler performs no session
lookup: `getSession` is never called on this path. -/
def profileRoute (st : AppState) (authToken : Option Jwt) : ProfileResult :=
  match authToken with
  | none => .err ⟨401, "Authentication required", "Access token required"⟩
  | some t =>
      match jwtVerify t .access st.now with
      | none => .err ⟨401, "Invalid token", "Token is invalid or expired"⟩
      | some d =>
          match findUserById st d.userId with
          | none => .err ⟨404, "User not found", "User profile not found"⟩
          | some u => .ok u.id u.email

/-! Rate limiting (config/redis.js incrementRateLimit and
middleware/auth.js authRateLimit) -/

/-- Redis lookup of a live (unexpired) counter for a key. -/
def rlFind (st : AppState) (key : String) : Option RateLimitEntry :=
  st.rate_limits.find? (fun e => e.key == key && decide (st.now < e.expires_at))

/-- The live counter value for a key (0 when absent or expired). -/
def liveCount (st : AppState) (key : String) : Nat :=
  match rlFind st key with
  | none => 0
  | some e => e.count

/-- incrementRateLimit(key, windowMs): INCR the key, setting an expiry
of windowMs/1000 seconds when the key is fresh; on a Redis error the
catch block returns 0. -/
def incrementRateLimit (st : AppState) (key : String) (windowMs : Nat) : Nat × AppState :=
  if st.rlFail then
    (0, st)
  else
    match rlFind st key with
    | none =>
        (1, { st with rate_limits :=
                ⟨key, 1, st.now + windowMs / 1000⟩ ::
                  st.rate_limits.filter (fun e => e.key != key) })
    | some e =>
        (e.count + 1, { st with rate_limits :=
                ⟨key, e.count + 1, e.expires_at⟩ ::
                  st.rate_limits.filter (fun x => x.key != key) })

/-- The Redis key used by authRateLimit for a client IP. -/
def rateLimitKey (ip : String) : String :=
  "auth_rate_limit:" ++ ip

/-- The 429 response of authRateLimit. -/
def rate429 : ErrResp :=
  ⟨429, "Rate limit exceeded", "Too many authentication attempts. Please try again later."⟩

/-- authRateLimit middleware: increment the per-IP counter with a
15-minute (900000 ms) window and reject with 429 when the counter
exceeds 5; any error in the middleware itself falls through to
next(). -/
def authRateLimit (st : AppState) (ip : String) : Option ErrResp × AppState :=
  let r := incrementRateLimit st (rateLimitKey ip) 900000
  if r.1 > 5 then (some rate429, r.2) else (none, r.2)

/-! POST /api/auth/login -/

/-- Result of the login endpoint. -/
inductive LoginResult
  | err (r : ErrResp)
  | ok (userId : Nat) (email : String) (accessToken refreshToken : Jwt)
deriving DecidableEq, Repr

/-- Observable outcome of one login request: the response, the state
after the request, and the number of bcrypt comparisons performed
while handling it (ghost instrumentation of comparePassword). -/
structure LoginOut where
  result : LoginResult
  state : AppState
  pwCompares : Nat
deriving DecidableEq, Repr

/-- The body of the login handler after authRateLimit and input
validation: look the user up by email, reject a missing user and a
wrong password with the same generic 401, reject an inactive user
with a distinct 401 before any bcrypt comparison, and on success mint
a session (freshSid models crypto.randomBytes), a 15-minute access
token, a 7-day refresh token, and a refresh_tokens row expiring in 7
days (604800 s). -/
def loginHandler (st : AppState) (email password freshSid : String) : LoginOut :=
  match findUserByEmail st email with
  | none =>
      ⟨.err ⟨401, "Invalid credentials", "Email or password is incorrect"⟩, st, 0⟩
  | some user =>
      if !user.is_active then
        ⟨.err ⟨401, "Account inactive", "Your account has been deactivated"⟩, st, 0⟩
      else if !comparePassword password user.password_hash then
        ⟨.err ⟨401, "Invalid credentials", "Email or password is incorrect"⟩, st, 1⟩
      else
        let accessToken := jwtSign user.id freshSid .access st.now 900
        let refreshToken := jwtSign user.id freshSid .refresh st.now 604800
        let st1 := setSession st freshSid ⟨user.id, user.email, none, none⟩
        let st2 := { st1 with refresh_tokens :=
                       st1.refresh_tokens ++ [⟨user.id, freshSid, st.now + 604800⟩] }
        ⟨.ok user.id user.email accessToken refreshToken, st2, 1⟩

/-- POST /api/auth/login: the authRateLimit middleware runs first; a
429 stops the request before the handler (and so before any bcrypt
comparison). -/
def loginRoute (st : AppState) (ip email password freshSid : String) : LoginOut :=
  match authRateLimit st ip with
  | (some r, st') => ⟨.err r, st', 0⟩
  | (none, st') => loginHandler st' email password freshSid

/-- One login attempt: credentials plus the session id that would be
generated on success. -/
structure Attempt where
  email : String
  password : String
  freshSid : String
deriving DecidableEq, Repr

/-- A sequence of login requests from one client IP, run back to back
(within the rate-limit window). -/
def runLoginAttempts (st : AppState) (ip : String) : List Attempt → List LoginOut × AppState
  | [] => ([], st)
  | a :: rest =>
      let out := loginRoute st ip a.email a.password a.freshSid
      let r := runLoginAttempts out.state ip rest
      (out :: r.1, r.2)

/-- Placeholder element for out-of-range list reads in statements. -/
def dummyOut : LoginOut :=
  ⟨.err ⟨0, "", ""⟩, ⟨[], [], [], [], false, 0⟩, 0⟩

/-! Market data service (services/marketDataService.js).

The collaborators of each service method are passed as explicit
arguments: the cached value for its cache key (`none` = cache miss),
the upstream provider response (an `Except` whose error is the thrown
message), and for the persistence path a failure oracle saying which
statement of the transaction, if any, fails.  Prices are integers in
this model; the parseFloat and parseInt normalisation of the source is
the identity on already-numeric data. -/

/-- A normalised historical bar (source field `open` is a Lean
keyword, rendered openPrice). -/
structure HistBar where
  time : Nat
  openPrice : Int
  high : Int
  low : Int
  close : Int
  volume : Int
deriving DecidableEq, Repr

/-- The company fields used by the stocks-table upsert. -/
structure CompanyInfo where
  name : String
  sector : String
  industry : String
  marketCap : Int
deriving DecidableEq, Repr

/-- A row of the stocks reference table. -/
structure StockRow where
  symbol : String
  company_name : String
  sector : String
  industry : String
  market_cap : Int
deriving DecidableEq, Repr

/-- A row of the stock_prices table, keyed by (time, symbol). -/
structure PriceRow where
  time : Nat
  symbol : String
  openPrice : Int
  high : Int
  low : Int
  close : Int
  volume : Int
deriving DecidableEq, Repr

/-- The durable store. -/
structure Db where
  stocks : List StockRow
  stock_prices : List PriceRow
deriving DecidableEq, Repr

/-- INSERT INTO stocks ... ON CONFLICT (symbol) DO UPDATE. -/
def upsertStock (db : Db) (row : StockRow) : Db :=
  { db with stocks := row :: db.stocks.filter (fun s => s.symbol != row.symbol) }

/-- INSERT INTO stock_prices ... ON CONFLICT (time, symbol) DO UPDATE. -/
def upsertPrice (db : Db) (row : PriceRow) : Db :=
  { db with stock_prices :=
      row :: db.stock_prices.filter (fun p => !(p.time == row.time && p.symbol == row.symbol)) }

/-- The per-bar insert loop of storeStockData; `priceFailAt = some i`
makes the insert of the bar with index `idx = i` throw. -/
def insertPrices (db : Db) (symbol : String) (data : List HistBar)
    (priceFailAt : Option Nat) (idx : Nat) : Except String Db :=
  match data with
  | [] => .ok db
  | row :: rest =>
      if priceFailAt == some idx then
        .error "price insert failed"
      else
        insertPrices
          (upsertPrice db ⟨row.time, symbol, row.openPrice, row.high, row.low, row.close, row.volume⟩)
          symbol rest priceFailAt (idx + 1)

/-- The BEGIN..COMMIT body of storeStockData: fetch company info
(which may throw), upsert the stocks row, then upsert every bar. -/
def storeStockDataTxn (db : Db) (symbol : String) (data : List HistBar)
    (companyInfo : Except String CompanyInfo) (priceFailAt : Option Nat) :
    Except String Db :=
  match companyInfo with
  | .error e => .error e
  | .ok ci =>
      insertPrices
        (upsertStock db ⟨symbol, ci.name, ci.sector, ci.industry, ci.marketCap⟩)
        symbol data priceFailAt 0

/-- storeStockData: run the transaction; on any failure ROLLBACK (the
database is left as it was) and swallow the error after logging it —
the outer catch never rethrows. -/
def storeStockData (db : Db) (symbol : String) (data : List HistBar)
    (companyInfo : Except String CompanyInfo) (priceFailAt : Option Nat) : Db :=
  match storeStockDataTxn db symbol data companyInfo priceFailAt with
  | .ok db' => db'
  | .error _ => db

/-- Result served to the caller of getStockData. -/
inductive StockDataResult
  | ok (bars : List HistBar)
  | failed (msg : String)
deriving DecidableEq, Repr

/-- getStockData(symbol, period, interval): serve the cached value on
a hit; otherwise fetch upstream (empty result is an error), transform,
cache, persist through storeStockData, and return the transformed
bars.  The cache write is not modelled as state here; the persistence
outcome is visible through the returned `Db`. -/
def getStockData (cached : Option (List HistBar)) (db : Db) (symbol : String)
    (upstream : Except String (List HistBar))
    (companyInfo : Except String CompanyInfo) (priceFailAt : Option Nat) :
    StockDataResult × Db :=
  match cached with
  | some bars => (.ok bars, db)
  | none =>
      match upstream with
      | .error m =>
          (.failed ("Failed to fetch stock data for " ++ symbol ++ ": " ++ m), db)
      | .ok rows =>
          if rows.isEmpty then
            (.failed ("Failed to fetch stock data for " ++ symbol ++
                      ": No data found for symbol: " ++ symbol), db)
          else
            let transformedData := rows
            let db' := storeStockData db symbol transformedData companyInfo priceFailAt
            (.ok transformedData, db')

/-- getPeriodInDays period table. -/
def periodMap : List (String × Nat) :=
  [("1d", 1), ("5d", 5), ("1mo", 30), ("3mo", 90), ("6mo", 180),
   ("1y", 365), ("2y", 730), ("5y", 1825), ("10y", 3650),
   ("ytd", 365), ("max", 3650)]

/-- getPeriodInDays(period): table lookup with JS `|| 365` fallback
(undefined and 0 are both falsy, hence the 0 guard). -/
def getPeriodInDays (period : String) : Nat :=
  match periodMap.lookup period with
  | some d => if d == 0 then 365 else d
  | none => 365

/-- The fields of a quote consumed by the sector loop. -/
structure Quote where
  symbol : String
  price : Int
  change : Int
  changePercent : Int
deriving DecidableEq, Repr

/-- The fixed ETF-to-sector table of getSectorPerformance. -/
def sectorETFs : List (String × String) :=
  [("XLK", "Technology"), ("XLF", "Financials"), ("XLE", "Energy"),
   ("XLV", "Healthcare"), ("XLI", "Industrials"), ("XLP", "Consumer Staples"),
   ("XLY", "Consumer Discretionary"), ("XLU", "Utilities"), ("XLB", "Materials"),
   ("XLRE", "Real Estate")]

/-- One entry of the sector map: a valid quote-derived record, or the
error marker built from the caught message. -/
inductive SectorEntry
  | ok (etf name : String) (price change changePercent : Int)
  | failed (msg : String)
deriving DecidableEq, Repr

/-- True on the error-marker entries. -/
def SectorEntry.isFailed : SectorEntry → Bool
  | .ok _ _ _ _ _ => false
  | .failed _ => true

/-- getSectorPerformance: serve the cached aggregate on a hit;
otherwise iterate the 10 sector ETFs, calling getStockQuote (the
`fetch` argument) for each, catching a per-symbol throw into an error
marker for that sector alone. -/
def getSectorPerformance (cached : Option (List (String × SectorEntry)))
    (fetch : String → Except String Quote) : List (String × SectorEntry) :=
  match cached with
  | some cs => cs
  | none =>
      sectorETFs.map (fun p =>
        match fetch p.1 with
        | .ok q => (p.2, .ok p.1 p.2 q.price q.change q.changePercent)
        | .error m => (p.2, .failed m))

/-! Concrete fixtures used by witnesses and counterexamples. -/

/-- An active registered user. -/
def demoUser : User :=
  ⟨1, "a@b.com", hashPassword "Secur3!Pass", "A", "B", true⟩

/-- An inactive (deactivated) user. -/
def inactiveUser : User :=
  ⟨2, "c@d.com", hashPassword "0therPass!", "C", "D", false⟩

/-- A state with one logged-in active user: a live session sess1 and
a matching unexpired refresh_tokens row. -/
def demoState : AppState :=
  { users := [demoUser],
    sessions := [("sess1", ⟨1, "a@b.com", none, none⟩)],
    refresh_tokens := [⟨1, "sess1", 605800⟩],
    rate_limits := [],
    rlFail := false,
    now := 1000 }

/-- A signature-valid, unexpired access token for demoState. -/
def demoAccessToken : Jwt :=
  ⟨1, "sess1", .access, 1900⟩

/-- A signature-valid, unexpired refresh token for demoState. -/
def demoRefreshToken : Jwt :=
  ⟨1, "sess1", .refresh, 605800⟩

/-- The req.user record validateToken would attach for demoState. -/
def demoReqUser : ReqUser :=
  ⟨1, "sess1", "a@b.com", "A", "B"⟩

/-- A state holding the active demoUser and the inactive inactiveUser,
with no sessions and empty rate-limit counters. -/
def stC4 : AppState :=
  { users := [demoUser, inactiveUser],
    sessions := [],
    refresh_tokens := [],
    rate_limits := [],
    rlFail := false,
    now := 1000 }

/-- demoState whose refresh-token row has already expired in the
durable store (expires_at 500 is before now = 1000), while the
refresh JWT itself still verifies. -/
def stExpiredRow : AppState :=
  { demoState with refresh_tokens := [⟨1, "sess1", 500⟩] }

/-- Six identical login attempts with the correct credentials of
demoUser. -/
def sixAttempts : List Attempt :=
  List.replicate 6 ⟨"a@b.com", "Secur3!Pass", "w1"⟩

/-- A quote fetcher that throws for XLE only. -/
def oneFailFetch : String → Except String Quote :=
  fun s => if s == "XLE" then .error "boom" else .ok ⟨s, 100, 1, 2⟩

/-- Two bars of upstream data. -/
def demoBars : List HistBar :=
  [⟨1, 10, 12, 9, 11, 1000⟩, ⟨2, 11, 13, 10, 12, 1100⟩]

/-- An empty durable store. -/
def demoDb : Db :=
  ⟨[], []⟩

/-- Company info used by the reference-table upsert. -/
def demoCompany : CompanyInfo :=
  ⟨"Apple Inc.", "Technology", "Consumer Electronics", 3000000⟩

/-! Theorems -/

/-- C7: getPeriodInDays is the fixed enumerated period table, with 1y
mapping to 365 days and max to 3650 days, and every period string
outside the table (malformed or unknown) falling back to 365 days
instead of erroring. -/
theorem getPeriodInDays_spec :
    (∀ p, periodMap.lookup p = none → getPeriodInDays p = 365) ∧
    getPeriodInDays "1y" = 365 ∧ getPeriodInDays "max" = 3650 ∧
    getPeriodInDays "1d" = 1 ∧ getPeriodInDays "5d" = 5 ∧
    getPeriodInDays "1mo" = 30 ∧ getPeriodInDays "3mo" = 90 ∧
    getPeriodInDays "6mo" = 180 ∧ getPeriodInDays "2y" = 730 ∧
    getPeriodInDays "5y" = 1825 ∧ getPeriodInDays "10y" = 3650 ∧
    getPeriodInDays "ytd" = 365 := by
  refine ⟨?_, by decide, by decide, by decide, by decide, by decide, by decide,
    by decide, by decide, by decide, by decide, by decide⟩
  intro p hp
  simp [getPeriodInDays, hp]

/-- C7 witness: a malformed period falls back to 365 days. -/
theorem getPeriodInDays_spec_witness : getPeriodInDays "bogus" = 365 :=
  getPeriodInDays_spec.1 "bogus" (by decide)

/-- C8: on a cache miss getSectorPerformance visits the 10 fixed
sector ETFs; every sector whose quote fetch throws appears as an error
marker carrying the thrown message, every other sector keeps its
quote-derived entry, and the number of error markers equals the number
of failing fetches — the call always returns a full 10-entry map, it
never throws. -/
theorem sectorPerformance_partial_failure (fetch : String → Except String Quote) :
    (getSectorPerformance none fetch).length = 10 ∧
    (∀ etf name, (etf, name) ∈ sectorETFs →
      (∀ m, fetch etf = .error m →
        (name, SectorEntry.failed m) ∈ getSectorPerformance none fetch) ∧
      (∀ q, fetch etf = .ok q →
        (name, SectorEntry.ok etf name q.price q.change q.changePercent) ∈
          getSectorPerformance none fetch)) ∧
    ((getSectorPerformance none fetch).countP (fun e => e.2.isFailed) =
      sectorETFs.countP (fun p =>
        match fetch p.1 with
        | .ok _ => false
        | .error _ => true)) := by
  refine ⟨by simp [getSectorPerformance, sectorETFs], ?_, ?_⟩
  · intro etf name hmem
    constructor
    · intro m hm
      have h := List.mem_map_of_mem
        (f := fun p : String × String =>
          match fetch p.1 with
          | .ok q => (p.2, SectorEntry.ok p.1 p.2 q.price q.change q.changePercent)
          | .error m => (p.2, SectorEntry.failed m)) hmem
      simpa [getSectorPerformance, hm] using h
    · intro q hq
      have h := List.mem_map_of_mem
        (f := fun p : String × String =>
          match fetch p.1 with
          | .ok q => (p.2, SectorEntry.ok p.1 p.2 q.price q.change q.changePercent)
          | .error m => (p.2, SectorEntry.failed m)) hmem
      simpa [getSectorPerformance, hq] using h
  · simp only [getSectorPerformance]
    rw [List.countP_map]
    apply List.countP_congr
    intro p _
    cases hf : fetch p.1 <;> simp [Function.comp, hf, SectorEntry.isFailed]

/-- C8 witness: with exactly one failing ETF fetch (XLE), the result
still has 10 entries, the Energy sector carries the error marker, and
there is exactly one error marker (so 9 valid entries). -/
theorem sectorPerformance_partial_failure_witness :
    ("Energy", SectorEntry.failed "boom") ∈ getSectorPerformance none oneFailFetch ∧
    (getSectorPerformance none oneFailFetch).length = 10 ∧
    (getSectorPerformance none oneFailFetch).countP (fun e => e.2.isFailed) = 1 ∧
    (getSectorPerformance none oneFailFetch).countP (fun e => !e.2.isFailed) = 9 :=
  ⟨((sectorPerformance_partial_failure oneFailFetch).2.1 "XLE" "Energy"
      (by decide)).1 "boom" rfl,
   (sectorPerformance_partial_failure oneFailFetch).1,
   by decide, by decide⟩

/-- Helper: the per-bar insert loop throws whenever the failing index
lies inside the batch. -/
theorem insertPrices_fail (symbol : String) :
    ∀ (data : List HistBar) (db : Db) (idx i : Nat), idx ≤ i → i < idx + data.length →
      ∃ msg, insertPrices db symbol data (some i) idx = .error msg := by
  intro data
  induction data with
  | nil =>
      intro db idx i h1 h2
      simp at h2
      omega
  | cons row rest ih =>
      intro db idx i h1 h2
      by_cases hc : i = idx
      · subst hc
        exact ⟨"price insert failed", by simp [insertPrices]⟩
      · have h3 : idx + 1 ≤ i := by omega
        have h4 : i < (idx + 1) + rest.length := by
          simp [List.length_cons] at h2
          omega
        obtain ⟨msg, hm⟩ := ih _ (idx + 1) i h3 h4
        refine ⟨msg, ?_⟩
        rw [insertPrices, if_neg (by simp [hc])]
        exact hm

/-- Helper: with no injected failure the insert loop commits. -/
theorem insertPrices_ok (symbol : String) :
    ∀ (data : List HistBar) (db : Db) (idx : Nat),
      ∃ db', insertPrices db symbol data none idx = .ok db' := by
  intro data
  induction data with
  | nil => intro db idx; exact ⟨db, rfl⟩
  | cons row rest ih =>
      intro db idx
      obtain ⟨db', h⟩ := ih _ (idx + 1)
      exact ⟨db', by rw [insertPrices, if_neg (by simp)]; exact h⟩

/-- C6: storeStockData wraps the stocks upsert and the per-bar
stock_prices upserts in one transaction — a failing company-info fetch
or a failing bar insert rolls the durable store back to exactly its
prior contents, while an undisturbed run commits — and any such
failure is swallowed, so the result served by getStockData is the same
whatever the persistence oracle says. -/
theorem storeStockData_transactional (db : Db) (symbol : String) (data : List HistBar) :
    (∀ e pfa, storeStockData db symbol data (.error e) pfa = db) ∧
    (∀ ci i, i < data.length → storeStockData db symbol data ci (some i) = db) ∧
    (∀ c, ∃ db', storeStockDataTxn db symbol data (.ok c) none = .ok db' ∧
      storeStockData db symbol data (.ok c) none = db') ∧
    (∀ cached up ci ci' pfa pfa',
      (getStockData cached db symbol up ci pfa).1 =
        (getStockData cached db symbol up ci' pfa').1) := by
  refine ⟨?_, ?_, ?_, ?_⟩
  · intro e pfa
    simp [storeStockData, storeStockDataTxn]
  · intro ci i hi
    cases ci with
    | error e => simp [storeStockData, storeStockDataTxn]
    | ok c =>
        obtain ⟨msg, hm⟩ := insertPrices_fail symbol data
          (upsertStock db ⟨symbol, c.name, c.sector, c.industry, c.marketCap⟩) 0 i
          (Nat.zero_le i) (by simpa using hi)
        simp [storeStockData, storeStockDataTxn, hm]
  · intro c
    obtain ⟨db', h⟩ := insertPrices_ok symbol data
      (upsertStock db ⟨symbol, c.name, c.sector, c.industry, c.marketCap⟩) 0
    exact ⟨db', by simp [storeStockDataTxn, h], by simp [storeStockData, storeStockDataTxn, h]⟩
  · intro cached up ci ci' pfa pfa'
    cases cached with
    | some bars => rfl
    | none =>
        cases up with
        | error m => rfl
        | ok rows =>
            by_cases hr : rows.isEmpty <;> simp [getStockData, hr]

/-- C6 witness: a failure at the second bar insert leaves the empty
store empty, and the data served by getStockData is the same with and
without that persistence failure. -/
theorem storeStockData_transactional_witness :
    storeStockData demoDb "AAPL" demoBars (.ok demoCompany) (some 1) = demoDb ∧
    (getStockData none demoDb "AAPL" (.ok demoBars) (.ok demoCompany) (some 1)).1 =
      (getStockData none demoDb "AAPL" (.ok demoBars) (.ok demoCompany) none).1 :=
  ⟨(storeStockData_transactional demoDb "AAPL" demoBars).2.1 (.ok demoCompany) 1 (by decide),
   (storeStockData_transactional demoDb "AAPL" demoBars).2.2.2
     none (.ok demoBars) (.ok demoCompany) (.ok demoCompany) (some 1) none⟩

/-- C1 (code evaluated at the failing input): in demoState a logged-in
active user has session sess1 and a matching refresh-token row.
POST /api/auth/logout answers 200 but leaves the state exactly as it
was — no validateToken runs on that route, so req.user is unset and
the logout middleware deletes nothing — and the old access token still
passes validateToken afterwards instead of getting the claimed 401.
The last two conjuncts show the logout middleware would have deleted
the session and the refresh-token row had req.user been attached. -/
theorem logoutRoute_does_not_revoke :
    logoutRoute demoState = (⟨200, "Logout successful"⟩, demoState) ∧
    (validateToken (logoutRoute demoState).2 (some demoAccessToken)).1 = .next demoReqUser ∧
    (logout demoState (some demoReqUser)).sessions = [] ∧
    (logout demoState (some demoReqUser)).refresh_tokens = [] :=
  ⟨rfl, by decide, by decide, by decide⟩

/-- C2: the validateToken gate — a failed signature/expiry check is a
401 invalid token; a valid signature with no matching session in the
cache is a 401 expired/invalid session; a missing or inactive user row
is a 401 that additionally deletes the orphaned session from the
cache; otherwise the resolved identity is attached and the request
proceeds with the state untouched. -/
theorem validateToken_gate (st : AppState) (t : Jwt) :
    (jwtVerify t .access st.now = none →
      validateToken st (some t) =
        (.halt ⟨401, "Invalid token", "Token is invalid or expired"⟩, st)) ∧
    (∀ d, jwtVerify t .access st.now = some d → getSession st d.sessionId = none →
      validateToken st (some t) =
        (.halt ⟨401, "Invalid session", "Session expired or invalid"⟩, st)) ∧
    (∀ d s, jwtVerify t .access st.now = some d → getSession st d.sessionId = some s →
      (findUserById st d.userId = none ∨
        ∃ u, findUserById st d.userId = some u ∧ u.is_active = false) →
      validateToken st (some t) =
        (.halt ⟨401, "User not found or inactive", "User account is inactive or deleted"⟩,
         deleteSession st d.sessionId)) ∧
    (∀ d s u, jwtVerify t .access st.now = some d → getSession st d.sessionId = some s →
      findUserById st d.userId = some u → u.is_active = true →
      validateToken st (some t) =
        (.next ⟨d.userId, d.sessionId, u.email, u.first_name, u.last_name⟩, st)) := by
  refine ⟨?_, ?_, ?_, ?_⟩
  · intro h
    simp [validateToken, h]
  · intro d h1 h2
    simp [validateToken, h1, h2]
  · intro d s h1 h2 h3
    rcases h3 with h3 | ⟨u, h3, h4⟩
    · simp [validateToken, h1, h2, h3]
    · simp [validateToken, h1, h2, h3, h4]
  · intro d s u h1 h2 h3 h4
    simp [validateToken, h1, h2, h3, h4]

/-- C2 witness: a token signed with the wrong secret is rejected as an
invalid token. -/
theorem validateToken_gate_witness :
    validateToken demoState (some ⟨1, "sess1", .refresh, 1900⟩) =
      (.halt ⟨401, "Invalid token", "Token is invalid or expired"⟩, demoState) :=
  (validateToken_gate demoState ⟨1, "sess1", .refresh, 1900⟩).1 (by decide)

/-- C3: when the refresh JWT verifies under the refresh secret but
every refresh_tokens row for its sessionId has expires_at in the past
(or no row exists), the refresh endpoint answers 401 invalid refresh
token; and conversely a minted access token always rests on an
unexpired matching durable row — a valid signature alone is never
enough. -/
theorem refresh_requires_unexpired_row (st : AppState) (t : Jwt) :
    (∀ d, jwtVerify t .refresh st.now = some d →
      (∀ r ∈ st.refresh_tokens, r.token = d.sessionId → r.expires_at ≤ st.now) →
      refreshRoute st t =
        (.err ⟨401, "Invalid refresh token", "Refresh token not found or expired"⟩, st)) ∧
    (∀ a st', refreshRoute st t = (.ok a, st') →
      ∃ d r, jwtVerify t .refresh st.now = some d ∧ r ∈ st.refresh_tokens ∧
        r.token = d.sessionId ∧ st.now < r.expires_at) := by
  constructor
  · intro d h1 h2
    have hfind : st.refresh_tokens.find?
        (fun r => r.token == d.sessionId && decide (st.now < r.expires_at)) = none := by
      rw [List.find?_eq_none]
      intro r hr
      simp only [Bool.and_eq_true, beq_iff_eq, decide_eq_true_eq, not_and]
      intro htok
      have := h2 r hr htok
      omega
    simp [refreshRoute, h1, hfind]
  · intro a st' h
    cases h1 : jwtVerify t .refresh st.now with
    | none => simp [refreshRoute, h1] at h
    | some d =>
        cases h2 : st.refresh_tokens.find?
            (fun r => r.token == d.sessionId && decide (st.now < r.expires_at)) with
        | none => simp [refreshRoute, h1, h2] at h
        | some r =>
            have hmem := List.mem_of_find?_eq_some h2
            have hp := List.find?_some h2
            simp only [Bool.and_eq_true, beq_iff_eq, decide_eq_true_eq] at hp
            exact ⟨d, r, rfl, hmem, hp.1, hp.2⟩

/-- C3 witness: with the durable row expired (expires_at 500 < now
1000) the still-signature-valid refresh token is rejected 401. -/
theorem refresh_requires_unexpired_row_witness :
    refreshRoute stExpiredRow demoRefreshToken =
      (.err ⟨401, "Invalid refresh token", "Refresh token not found or expired"⟩, stExpiredRow) :=
  (refresh_requires_unexpired_row stExpiredRow demoRefreshToken).1
    ⟨1, "sess1"⟩ (by decide) (by decide)

/-- C9: every refresh request, successful or not, leaves the state
untouched — the session in the cache, every refresh_tokens row, and
(trivially, being a value) the presented refresh token are exactly as
before — and a successful refresh issues only one thing: a token
signed with the access secret for the same userId and sessionId the
presented token carried, expiring 900 seconds (15 minutes) later. -/
theorem refresh_mints_only_access_token (st : AppState) (t : Jwt) :
    (refreshRoute st t).2 = st ∧
    (∀ a st', refreshRoute st t = (.ok a, st') →
      a.secret = .access ∧ jwtVerify t .refresh st.now = some ⟨a.userId, a.sessionId⟩ ∧
      a.exp = st.now + 900) := by
  constructor
  · unfold refreshRoute
    split
    · rfl
    · split
      · rfl
      · split
        · rfl
        · split <;> rfl
  · intro a st' h
    cases h1 : jwtVerify t .refresh st.now with
    | none => simp [refreshRoute, h1] at h
    | some d =>
        cases h2 : st.refresh_tokens.find?
            (fun r => r.token == d.sessionId && decide (st.now < r.expires_at)) with
        | none => simp [refreshRoute, h1, h2] at h
        | some r =>
            cases h3 : findUserById st d.userId with
            | none => simp [refreshRoute, h1, h2, h3] at h
            | some u =>
                cases h4 : u.is_active with
                | false => simp [refreshRoute, h1, h2, h3, h4] at h
                | true =>
                    have ha : a = jwtSign d.userId d.sessionId .access st.now 900 := by
                      simp [refreshRoute, h1, h2, h3, h4] at h
                      exact h.1.symm
                    subst ha
                    exact ⟨rfl, rfl, rfl⟩

/-- C9 witness: the successful refresh in demoState mints the access
token ⟨1, sess1, access, 1900⟩ and nothing else changes. -/
theorem refresh_mints_only_access_token_witness :
    (refreshRoute demoState demoRefreshToken).2 = demoState ∧
    (⟨1, "sess1", Secret.access, 1900⟩ : Jwt).secret = .access ∧
    jwtVerify demoRefreshToken .refresh demoState.now = some ⟨1, "sess1"⟩ ∧
    (⟨1, "sess1", Secret.access, 1900⟩ : Jwt).exp = demoState.now + 900 :=
  ⟨(refresh_mints_only_access_token demoState demoRefreshToken).1,
   (refresh_mints_only_access_token demoState demoRefreshToken).2
     ⟨1, "sess1", .access, 1900⟩ demoState (by decide)⟩

/-- C10: GET /api/auth/profile never reads the session store — its
result is invariant under any replacement of the sessions table — and
whenever the bearer token verifies under the access secret and the
user row exists, it answers 200 with the profile even though the
referenced session is gone from the cache. -/
theorem profile_ignores_session_store (st : AppState) (t : Jwt) :
    (∀ sessions2, profileRoute { st with sessions := sessions2 } (some t) =
      profileRoute st (some t)) ∧
    (∀ d u, jwtVerify t .access st.now = some d → findUserById st d.userId = some u →
      getSession st d.sessionId = none →
      profileRoute st (some t) = .ok u.id u.email) := by
  constructor
  · intro sessions2
    rfl
  · intro d u h1 h2 _
    simp [profileRoute, h1, h2]

/-- C10 witness: with the session deleted (sessions table emptied) the
still-valid access token fetches the profile with 200. -/
theorem profile_ignores_session_store_witness :
    profileRoute { demoState with sessions := [] } (some demoAccessToken) = .ok 1 "a@b.com" :=
  (profile_ignores_session_store { demoState with sessions := [] } demoAccessToken).2
    ⟨1, "sess1"⟩ demoUser (by decide) (by decide) (by decide)

/-- C4 counterexample: a login as an existing but inactive user and a
login with an email matching no user produce different 401 responses
(Account inactive versus Invalid credentials), so the generic
rejection does not cover the inactive case as the claim states. -/
theorem login_inactive_response_differs :
    (loginRoute stC4 "9.9.9.9" "c@d.com" "whatever" "s9").result =
      .err ⟨401, "Account inactive", "Your account has been deactivated"⟩ ∧
    (loginRoute stC4 "9.9.9.9" "nobody@x.com" "whatever" "s9").result =
      .err ⟨401, "Invalid credentials", "Email or password is incorrect"⟩ ∧
    (loginRoute stC4 "9.9.9.9" "c@d.com" "whatever" "s9").result ≠
      (loginRoute stC4 "9.9.9.9" "nobody@x.com" "whatever" "s9").result := by
  refine ⟨by decide, by decide, by decide⟩

/-- C4 amended: a missing user and a wrong password for an existing
active user are rejected with the identical generic 401 Invalid
credentials response, but an existing inactive user is rejected with
the distinct 401 Account inactive response (before any password
comparison). -/
theorem login_error_responses (st : AppState) (email password freshSid : String) :
    (findUserByEmail st email = none →
      (loginHandler st email password freshSid).result =
        .err ⟨401, "Invalid credentials", "Email or password is incorrect"⟩) ∧
    (∀ u, findUserByEmail st email = some u → u.is_active = true →
      comparePassword password u.password_hash = false →
      (loginHandler st email password freshSid).result =
        .err ⟨401, "Invalid credentials", "Email or password is incorrect"⟩) ∧
    (∀ u, findUserByEmail st email = some u → u.is_active = false →
      (loginHandler st email password freshSid).result =
        .err ⟨401, "Account inactive", "Your account has been deactivated"⟩ ∧
      (loginHandler st email password freshSid).pwCompares = 0) := by
  refine ⟨?_, ?_, ?_⟩
  · intro h
    simp [loginHandler, h]
  · intro u h1 h2 h3
    simp [loginHandler, h1, h2, h3]
  · intro u h1 h2
    simp [loginHandler, h1, h2]

/-- C4 amended witness: in stC4 the unknown email gets the generic
response, the active user with a wrong password gets the same generic
response, and the inactive user gets the distinct one. -/
theorem login_error_responses_witness :
    (loginHandler stC4 "nobody@x.com" "whatever" "s9").result =
      .err ⟨401, "Invalid credentials", "Email or password is incorrect"⟩ ∧
    (loginHandler stC4 "a@b.com" "WrongPass1!" "s9").result =
      .err ⟨401, "Invalid credentials", "Email or password is incorrect"⟩ ∧
    (loginHandler stC4 "c@d.com" "whatever" "s9").result =
      .err ⟨401, "Account inactive", "Your account has been deactivated"⟩ :=
  ⟨(login_error_responses stC4 "nobody@x.com" "whatever" "s9").1 (by decide),
   (login_error_responses stC4 "a@b.com" "WrongPass1!" "s9").2.1 demoUser
     (by decide) (by decide) (by decide),
   ((login_error_responses stC4 "c@d.com" "whatever" "s9").2.2 inactiveUser
     (by decide) (by decide)).1⟩

/-- Helper: the live counter only depends on the rate_limits table and
the clock. -/
theorem liveCount_congr (st st' : AppState) (key : String)
    (h1 : st'.rate_limits = st.rate_limits) (h2 : st'.now = st.now) :
    liveCount st' key = liveCount st key := by
  unfold liveCount rlFind
  rw [h1, h2]

/-- Helper: the login handler never touches the rate-limit counters,
the clock, or the Redis failure flag. -/
theorem loginHandler_preserves_rl (st : AppState) (e p s : String) :
    (loginHandler st e p s).state.rate_limits = st.rate_limits ∧
    (loginHandler st e p s).state.now = st.now ∧
    (loginHandler st e p s).state.rlFail = st.rlFail := by
  unfold loginHandler
  cases hf : findUserByEmail st e with
  | none => exact ⟨rfl, rfl, rfl⟩
  | some u =>
      cases ha : u.is_active with
      | false => simp [ha]
      | true =>
          cases hc : comparePassword p u.password_hash with
          | false => simp [ha, hc]
          | true => simp [ha, hc, setSession]

/-- Helper: the login handler never answers with the 429 rate-limit
response. -/
theorem loginHandler_not_rate429 (st : AppState) (e p s : String) :
    (loginHandler st e p s).result ≠ .err rate429 := by
  unfold loginHandler
  cases hf : findUserByEmail st e with
  | none => simp [rate429]
  | some u =>
      cases ha : u.is_active with
      | false => simp [ha, rate429]
      | true =>
          cases hc : comparePassword p u.password_hash with
          | false => simp [ha, hc, rate429]
          | true => simp [ha, hc, rate429]

/-- Helper: an absent or expired counter reads as zero. -/
theorem liveCount_none (st : AppState) (key : String) (hf : rlFind st key = none) :
    liveCount st key = 0 := by
  unfold liveCount
  rw [hf]

/-- Helper: a live counter reads as its stored count. -/
theorem liveCount_some (st : AppState) (key : String) (e : RateLimitEntry)
    (hf : rlFind st key = some e) : liveCount st key = e.count := by
  unfold liveCount
  rw [hf]

/-- Helper: with Redis healthy, one INCR returns the live count plus
one, leaves that as the new live count, and changes neither the clock
nor the failure flag. -/
theorem incrementRateLimit_count (st : AppState) (key : String) (h : st.rlFail = false) :
    (incrementRateLimit st key 900000).1 = liveCount st key + 1 ∧
    liveCount (incrementRateLimit st key 900000).2 key = liveCount st key + 1 ∧
    (incrementRateLimit st key 900000).2.now = st.now ∧
    (incrementRateLimit st key 900000).2.rlFail = false := by
  cases hf : rlFind st key with
  | none =>
      have hstep : incrementRateLimit st key 900000 =
          (1, { st with rate_limits := ⟨key, 1, st.now + 900⟩ ::
                  st.rate_limits.filter (fun x => x.key != key) }) := by
        simp [incrementRateLimit, h, hf]
      have hfind2 : rlFind (incrementRateLimit st key 900000).2 key =
          some ⟨key, 1, st.now + 900⟩ := by
        rw [hstep]
        unfold rlFind
        apply List.find?_cons_of_pos
        simp
      refine ⟨?_, ?_, ?_, ?_⟩
      · rw [hstep, liveCount_none st key hf]
      · rw [liveCount_some _ key _ hfind2, liveCount_none st key hf]
      · rw [hstep]
      · rw [hstep]; exact h
  | some entry =>
      have hp := List.find?_some hf
      simp only [Bool.and_eq_true, beq_iff_eq, decide_eq_true_eq] at hp
      have hstep : incrementRateLimit st key 900000 =
          (entry.count + 1, { st with rate_limits := ⟨key, entry.count + 1, entry.expires_at⟩ ::
                  st.rate_limits.filter (fun x => x.key != key) }) := by
        simp [incrementRateLimit, h, hf]
      have hfind2 : rlFind (incrementRateLimit st key 900000).2 key =
          some ⟨key, entry.count + 1, entry.expires_at⟩ := by
        rw [hstep]
        unfold rlFind
        apply List.find?_cons_of_pos
        simp [hp.2]
      refine ⟨?_, ?_, ?_, ?_⟩
      · rw [hstep, liveCount_some st key entry hf]
      · rw [liveCount_some _ key _ hfind2, liveCount_some st key entry hf]
      · rw [hstep]
      · rw [hstep]; exact h

/-- Helper: one login request through the rate-limit gate — a live
count already at 5 or more makes the request answer 429 with zero
bcrypt comparisons, a smaller count hands the request to the handler,
and in either case the live count afterwards has grown by one while
the clock and failure flag are unchanged. -/
theorem loginRoute_step (st : AppState) (ip e p s : String) (h : st.rlFail = false) :
    (5 < liveCount st (rateLimitKey ip) + 1 →
      loginRoute st ip e p s =
        ⟨.err rate429, (incrementRateLimit st (rateLimitKey ip) 900000).2, 0⟩) ∧
    (liveCount st (rateLimitKey ip) + 1 ≤ 5 →
      loginRoute st ip e p s =
        loginHandler (incrementRateLimit st (rateLimitKey ip) 900000).2 e p s) ∧
    liveCount (loginRoute st ip e p s).state (rateLimitKey ip) =
      liveCount st (rateLimitKey ip) + 1 ∧
    (loginRoute st ip e p s).state.now = st.now ∧
    (loginRoute st ip e p s).state.rlFail = false := by
  obtain ⟨h1, h2, h3, h4⟩ := incrementRateLimit_count st (rateLimitKey ip) h
  by_cases hgt : 5 < liveCount st (rateLimitKey ip) + 1
  · have hA : authRateLimit st ip =
        (some rate429, (incrementRateLimit st (rateLimitKey ip) 900000).2) := by
      simp only [authRateLimit]
      rw [if_pos (by rw [h1]; exact hgt)]
    have hL : loginRoute st ip e p s =
        ⟨.err rate429, (incrementRateLimit st (rateLimitKey ip) 900000).2, 0⟩ := by
      simp [loginRoute, hA]
    refine ⟨fun _ => hL, fun hle => absurd hgt (by omega), ?_, ?_, ?_⟩
    · rw [hL]; exact h2
    · rw [hL]; exact h3
    · rw [hL]; exact h4
  · have hA : authRateLimit st ip =
        (none, (incrementRateLimit st (rateLimitKey ip) 900000).2) := by
      simp only [authRateLimit]
      rw [if_neg (by rw [h1]; exact hgt)]
    have hL : loginRoute st ip e p s =
        loginHandler (incrementRateLimit st (rateLimitKey ip) 900000).2 e p s := by
      simp [loginRoute, hA]
    obtain ⟨p1, p2, p3⟩ :=
      loginHandler_preserves_rl (incrementRateLimit st (rateLimitKey ip) 900000).2 e p s
    refine ⟨fun hgt' => absurd hgt' hgt, fun _ => hL, ?_, ?_, ?_⟩
    · rw [hL, liveCount_congr _ _ _ p1 p2]
      exact h2
    · rw [hL, p2]; exact h3
    · rw [hL, p3]; exact h4

/-- Helper: in a back-to-back run of login attempts from one IP with
Redis healthy, the attempt with index i is answered 429 without any
bcrypt comparison exactly when the initial live count plus i + 1
exceeds 5, and is not rate-limited otherwise. -/
theorem runLoginAttempts_spec (ip : String) :
    ∀ (attempts : List Attempt) (st : AppState), st.rlFail = false →
    ∀ i, i < attempts.length →
      (5 < liveCount st (rateLimitKey ip) + i + 1 →
        ((runLoginAttempts st ip attempts).1.getD i dummyOut).result = .err rate429 ∧
        ((runLoginAttempts st ip attempts).1.getD i dummyOut).pwCompares = 0) ∧
      (liveCount st (rateLimitKey ip) + i + 1 ≤ 5 →
        ((runLoginAttempts st ip attempts).1.getD i dummyOut).result ≠ .err rate429) := by
  intro attempts
  induction attempts with
  | nil =>
      intro st _ i hi
      simp at hi
  | cons a rest ih =>
      intro st hrl i hi
      obtain ⟨hbig, hpass, hlc, hnow, hfail⟩ := loginRoute_step st ip a.email a.password a.freshSid hrl
      cases i with
      | zero =>
          simp only [runLoginAttempts, List.getD_cons_zero]
          constructor
          · intro hgt
            rw [hbig (by omega)]
            exact ⟨rfl, rfl⟩
          · intro hle
            rw [hpass (by omega)]
            exact loginHandler_not_rate429 _ _ _ _
      | succ j =>
          simp only [runLoginAttempts, List.getD_cons_succ]
          have hj : j < rest.length := by
            simp [List.length_cons] at hi
            omega
          have hrec := ih (loginRoute st ip a.email a.password a.freshSid).state hfail j hj
          rw [hlc] at hrec
          exact ⟨fun hgt => hrec.1 (by omega), fun hle => hrec.2 (by omega)⟩

/-- C5: from one client IP with no live counter, the login attempt
with 0-based index below 5 passes the rate-limit gate (it is never
answered 429) whatever credentials it carries, and every attempt from
index 5 on (the 6th and later) is answered 429 with zero bcrypt
comparisons; the first attempt installs a counter of 1 expiring 900
seconds (15 minutes) later; and when the Redis counter operation
fails, the request proceeds to the handler as if no gate existed. -/
theorem auth_rate_limit_gate :
    (∀ (st : AppState) (ip : String) (attempts : List Attempt) (i : Nat),
      st.rlFail = false → rlFind st (rateLimitKey ip) = none → i < attempts.length →
      (i < 5 → ((runLoginAttempts st ip attempts).1.getD i dummyOut).result ≠ .err rate429) ∧
      (5 ≤ i → ((runLoginAttempts st ip attempts).1.getD i dummyOut).result = .err rate429 ∧
        ((runLoginAttempts st ip attempts).1.getD i dummyOut).pwCompares = 0)) ∧
    (∀ (st : AppState) (key : String), st.rlFail = false → rlFind st key = none →
      incrementRateLimit st key 900000 =
        (1, { st with rate_limits := ⟨key, 1, st.now + 900⟩ ::
                st.rate_limits.filter (fun x => x.key != key) })) ∧
    (∀ (st : AppState) (ip e p s : String), st.rlFail = true →
      loginRoute st ip e p s = loginHandler st e p s) := by
  refine ⟨?_, ?_, ?_⟩
  · intro st ip attempts i h hfind hi
    have hmain := runLoginAttempts_spec ip attempts st h i hi
    have hlc : liveCount st (rateLimitKey ip) = 0 := by simp [liveCount, hfind]
    rw [hlc] at hmain
    exact ⟨fun h5 => hmain.2 (by omega), fun h5 => hmain.1 (by omega)⟩
  · intro st key h hfind
    simp [incrementRateLimit, h, hfind]
  · intro st ip e p s h
    simp [loginRoute, authRateLimit, incrementRateLimit, h]

/-- C5 witness: six consecutive logins with the correct credentials of
demoUser from one IP — the 6th is answered 429 without any bcrypt
comparison, while the 1st is not rate-limited. -/
theorem auth_rate_limit_gate_witness :
    ((runLoginAttempts stC4 "1.2.3.4" sixAttempts).1.getD 5 dummyOut).result = .err rate429 ∧
    ((runLoginAttempts stC4 "1.2.3.4" sixAttempts).1.getD 5 dummyOut).pwCompares = 0 ∧
    ((runLoginAttempts stC4 "1.2.3.4" sixAttempts).1.getD 0 dummyOut).result ≠ .err rate429 := by
  have hA := auth_rate_limit_gate.1 stC4 "1.2.3.4" sixAttempts 5 rfl (by decide) (by decide)
  have hB := auth_rate_limit_gate.1 stC4 "1.2.3.4" sixAttempts 0 rfl (by decide) (by decide)
  exact ⟨(hA.2 (by decide)).1, (hA.2 (by decide)).2, hB.1 (by decide)⟩

end FinApp
